import Mathlib

/-!
Shallow embedding of the FAST-API-BACKEND e-commerce service (src/main.py).

The service is four operations over two MongoDB collections.  We model each
collection as a Lean list kept in insertion (`_id`) order: MongoDB's
`sort("_id", 1)` is applied server-side before `skip`/`limit` regardless of
how the cursor methods are chained, so sorting is the identity on the list
and `skip`/`limit` become `List.drop`/`List.take`.  Monetary values
(`price: float`, `total: float`) are modelled as rationals; the floating
point representation is abstracted, but every concrete value used below is
exactly representable so sign and equality facts transfer.  Timestamps
(`created_at`/`updated_at`) are omitted: no operation ever reads them.
-/

namespace ECom

/-- Pydantic model `Size` (main.py lines 19-21). -/
structure Size where
  size : String
  quantity : Int
deriving Repr, DecidableEq

/-- A document of the `products` collection as written by `create_product`
(main.py lines 102-109): the service-generated `id`, `name`, `price`, and
the `sizes` array. -/
structure Product where
  id : String
  name : String
  price : ℚ
  sizes : List Size
deriving Repr, DecidableEq

/-- Pydantic model `OrderItem` (main.py lines 46-48): `qty` is a plain
`int`, with no positivity constraint. -/
structure OrderItem where
  productId : String
  qty : Int
deriving Repr, DecidableEq

/-- Pydantic model `OrderCreate` (main.py lines 50-52). -/
structure OrderCreate where
  userId : String
  items : List OrderItem
deriving Repr, DecidableEq

/-- A document of the `orders` collection as written by `create_order`
(main.py lines 218-225). -/
structure Order where
  id : String
  userId : String
  items : List OrderItem
  total : ℚ
deriving Repr, DecidableEq

/-- Pydantic model `PaginationInfo` (main.py lines 36-39): note that `next`
is declared `Optional[str]` while `previous` is `Optional[int]`. -/
structure PaginationInfo where
  next : Option String
  limit : Nat
  previous : Option Int
deriving Repr, DecidableEq

/-- Pydantic model `ProductListItem` (main.py lines 31-34). -/
structure ProductListItem where
  id : String
  name : String
  price : ℚ
deriving Repr, DecidableEq

/-- Pydantic model `ProductListResponse` (main.py lines 41-43). -/
structure ProductListResponse where
  data : List ProductListItem
  page : PaginationInfo
deriving Repr, DecidableEq

/-- Pydantic model `ProductDetails` (main.py lines 57-59). -/
structure ProductDetails where
  name : String
  id : String
deriving Repr, DecidableEq

/-- Pydantic model `OrderItemWithDetails` (main.py lines 61-63). -/
structure OrderItemWithDetails where
  productDetails : ProductDetails
  qty : Int
deriving Repr, DecidableEq

/-- Pydantic model `OrderListItem` (main.py lines 65-68). -/
structure OrderListItem where
  id : String
  items : List OrderItemWithDetails
  total : ℚ
deriving Repr, DecidableEq

/-- Pydantic model `OrderListResponse` (main.py lines 70-72). -/
structure OrderListResponse where
  data : List OrderListItem
  page : PaginationInfo
deriving Repr, DecidableEq

/-- A JSON scalar, used to talk about how a pagination field is serialized
on the wire: FastAPI/pydantic renders an `Optional[str]` value as a JSON
string (or `null`) and an `Optional[int]` value as a JSON number (or
`null`). -/
inductive JsonVal where
  | jnull
  | jstr (s : String)
  | jnum (n : Int)
deriving Repr, DecidableEq

/-- JSON serialization of the `next` field (`Optional[str]`, main.py
line 37): a string when present, `null` otherwise. -/
def PaginationInfo.nextJson (p : PaginationInfo) : JsonVal :=
  match p.next with
  | some s => JsonVal.jstr s
  | none => JsonVal.jnull

/-- JSON serialization of the `previous` field (`Optional[int]`, main.py
line 39): a number when present, `null` otherwise. -/
def PaginationInfo.previousJson (p : PaginationInfo) : JsonVal :=
  match p.previous with
  | some n => JsonVal.jnum n
  | none => JsonVal.jnull

/-! ### The name filter

`list_products` passes the `name` query parameter to MongoDB as
`{"$regex": name, "$options": "i"}` (main.py line 146); the `except
re.error` branch (line 149) would instead pass `re.escape(name)`.  MongoDB
evaluates the PCRE pattern against each document's `name`.  We model the
pattern semantics only for *literal* patterns (no regex metacharacters),
which is all any claim quantifies over: a literal pattern with the `i`
option matches a string iff it occurs in it as a case-insensitive
substring. -/

/-- Whether `p` is a prefix of the second list (character-wise equality). -/
def startsWithSeq : List Char → List Char → Bool
  | [], _ => true
  | _ :: _, [] => false
  | a :: as, b :: bs => a == b && startsWithSeq as bs

/-- Whether `p` occurs as a contiguous subsequence of the second list. -/
def containsSeq (p : List Char) : List Char → Bool
  | [] => startsWithSeq p []
  | c :: cs => startsWithSeq p (c :: cs) || containsSeq p cs

/-- MongoDB `$regex` with option `"i"`, restricted to literal patterns:
the pattern occurs in the target as a case-insensitive substring. -/
def mongoRegexMatchI (pattern target : String) : Bool :=
  containsSeq pattern.toLower.data target.toLower.data

/-- The characters Python's `re.escape` (3.7+) prepends a backslash to. -/
def reEscapeChars : List Char :=
  ['(', ')', '[', ']', '\x7b', '\x7d', '?', '*', '+', '-', '|', '^', '$',
   '\\', '.', '&', '~', '#', ' ', '\t', '\n', '\r', '\x0b', '\x0c']

/-- Python's `re.escape` (main.py line 149): prepend a backslash to every
character special to regular expressions. -/
def reEscape (s : String) : String :=
  ⟨s.data.foldr (fun c acc =>
    if reEscapeChars.contains c then '\\' :: c :: acc else c :: acc) []⟩

/-- A plain-text pattern: one containing none of the characters `re.escape`
would escape, hence no regex metacharacters. -/
def isPlainText (s : String) : Bool :=
  s.data.all (fun c => !(reEscapeChars.contains c))

/-! ### GET /products (main.py lines 119-182) -/

/-- The filter document built by `list_products` (main.py lines 140-153),
as a predicate on product documents.  `if name:` / `if size:` in Python
skip the filter when the parameter is `None` *or* the empty string.  The
name condition is the MongoDB case-insensitive regex match; the size
condition is `{"sizes.size": size}`, i.e. some element of the `sizes`
array has `size` exactly equal to the filter text. -/
def productMatches (name size : Option String) (p : Product) : Bool :=
  (match name with
   | some n => if n = "" then true else mongoRegexMatchI n p.name
   | none => true)
  &&
  (match size with
   | some s => if s = "" then true else p.sizes.any (fun e => e.size == s)
   | none => true)

/-- Shared pagination footer of both list endpoints (main.py lines 170-177
and 288-295): `next` is `str(offset + limit)` when another page exists,
`previous` is the unclamped `offset - limit` when `offset > 0`, and
`limit` is the number of items actually returned. -/
def mkPagination (offset limit totalCount dataLen : Nat) : PaginationInfo :=
  { next := if offset + limit < totalCount then some (toString (offset + limit)) else none
    limit := dataLen
    previous := if 0 < offset then some ((offset : Int) - (limit : Int)) else none }

/-- The `GET /products` handler `list_products` (main.py lines 119-182).
The store list is in `_id` (insertion) order, so `sort("_id", 1)` is the
identity; `count_documents` is the length of the filtered list and
`skip(offset).limit(limit)` is `drop`/`take`. -/
def list_products (store : List Product) (name size : Option String)
    (limit offset : Nat) : ProductListResponse :=
  let matching := store.filter (productMatches name size)
  let total_count := matching.length
  let data := ((matching.drop offset).take limit).map
    (fun p => { id := p.id, name := p.name, price := p.price : ProductListItem })
  { data := data, page := mkPagination offset limit total_count data.length }

/-- The name filter as built by the dead `except re.error` branch (main.py
line 149): the pattern is `re.escape(name)` instead of `name` itself. -/
def productMatchesFallback (name size : Option String) (p : Product) : Bool :=
  (match name with
   | some n => if n = "" then true else mongoRegexMatchI (reEscape n) p.name
   | none => true)
  &&
  (match size with
   | some s => if s = "" then true else p.sizes.any (fun e => e.size == s)
   | none => true)

/-- `list_products` as it would behave if the fallback branch (main.py
lines 147-149) were taken: identical except for the escaped name pattern. -/
def list_products_fallback (store : List Product) (name size : Option String)
    (limit offset : Nat) : ProductListResponse :=
  let matching := store.filter (productMatchesFallback name size)
  let total_count := matching.length
  let data := ((matching.drop offset).take limit).map
    (fun p => { id := p.id, name := p.name, price := p.price : ProductListItem })
  { data := data, page := mkPagination offset limit total_count data.length }

/-! ### POST /orders (main.py lines 184-235) -/

/-- Outcome of `create_order`: HTTP 400 with the `missing` ids interpolated
into `"Products not found: ..."`, HTTP 500 (the `except Exception` path,
reached when `next(...)` finds no product), or HTTP 201 with the order
document persisted. -/
inductive CreateOrderResult where
  | validationError (missing : List String)
  | serverError
  | created (ord : Order)
deriving Repr, DecidableEq

/-- The total-computation loop (main.py lines 212-215): running total
threaded through the items left to right; `next(p for p in
existing_products if p["id"] == item.productId)` fails (escaping to the
generic 500 handler) when no fetched product has the item's id. -/
def computeTotalAux (existing : List Product) (acc : ℚ) :
    List OrderItem → Option ℚ
  | [] => some acc
  | it :: rest =>
    match existing.find? (fun p => p.id == it.productId) with
    | some p => computeTotalAux existing (acc + p.price * (it.qty : ℚ)) rest
    | none => none

/-- Total of an order request given the fetched products, starting from
`total = 0` (main.py line 212). -/
def computeTotal (existing : List Product) (items : List OrderItem) : Option ℚ :=
  computeTotalAux existing 0 items

/-- The `POST /orders` handler `create_order` (main.py lines 184-235).
`product_ids` keeps duplicates (line 200); the `$in` query returns each
matching *document* once, in insertion order (line 201); the validation
compares the two lengths (line 203) and reports every element of
`product_ids` not among the fetched ids (line 205); on success the order
document echoes the input items with the computed total (lines 218-228).
`newId` stands for the freshly generated UUID. -/
def create_order (products : List Product) (req : OrderCreate)
    (newId : String) : CreateOrderResult :=
  let product_ids := req.items.map (fun it => it.productId)
  let existing_products := products.filter (fun p => product_ids.contains p.id)
  if existing_products.length ≠ product_ids.length then
    let existing_ids := existing_products.map (fun p => p.id)
    CreateOrderResult.validationError
      (product_ids.filter (fun pid => !(existing_ids.contains pid)))
  else
    match computeTotal existing_products req.items with
    | some total =>
        CreateOrderResult.created
          { id := newId, userId := req.userId, items := req.items, total := total }
    | none => CreateOrderResult.serverError

/-! ### GET /orders/{user_id} (main.py lines 237-300) -/

/-- Per-item enrichment in `list_orders` (main.py lines 268-279):
`find_one({"id": item["productId"]})` is the first product document with
that id; when found, `{name, id}` is attached as `productDetails` together
with the item's `qty`; when not found the item is skipped. -/
def enrichItem (products : List Product) (it : OrderItem) :
    Option OrderItemWithDetails :=
  match products.find? (fun p => p.id == it.productId) with
  | some p =>
      some { productDetails := { name := p.name, id := p.id }, qty := it.qty }
  | none => none

/-- Per-order assembly in `list_orders` (main.py lines 264-285): the
enriched item list together with the stored `id` and `total`. -/
def enrichOrder (products : List Product) (o : Order) : OrderListItem :=
  { id := o.id, items := o.items.filterMap (enrichItem products), total := o.total }

/-- The `GET /orders/{user_id}` handler `list_orders` (main.py lines
237-300): filter by `userId`, paginate exactly as `list_products` does,
and enrich each page order. -/
def list_orders (products : List Product) (orders : List Order)
    (user_id : String) (limit offset : Nat) : OrderListResponse :=
  let matching := orders.filter (fun o => o.userId == user_id)
  let total_count := matching.length
  let data := ((matching.drop offset).take limit).map (enrichOrder products)
  { data := data, page := mkPagination offset limit total_count data.length }

end ECom

namespace ECom

/-! ## Supporting lemmas -/

/-- The empty character sequence is a prefix of every sequence. -/
theorem startsWithSeq_nil (l : List Char) : startsWithSeq [] l = true := by
  cases l <;> rfl

/-- The empty character sequence occurs in every sequence. -/
theorem containsSeq_nil (l : List Char) : containsSeq [] l = true := by
  cases l <;> simp [containsSeq, startsWithSeq_nil]

/-- On plain text, `re.escape` is the identity: there is nothing to escape. -/
theorem reEscape_of_plain (s : String) (h : isPlainText s = true) :
    reEscape s = s := by
  have key : ∀ l : List Char, l.all (fun c => !(reEscapeChars.contains c)) = true →
      l.foldr (fun c acc =>
        if reEscapeChars.contains c then '\\' :: c :: acc else c :: acc) [] = l := by
    intro l hl
    induction l with
    | nil => rfl
    | cons c cs ih =>
      rw [List.all_cons, Bool.and_eq_true] at hl
      have hc : ¬ (reEscapeChars.contains c = true) := by simpa using hl.1
      rw [List.foldr_cons, if_neg hc, ih hl.2]
  have h2 := key s.data h
  show String.mk _ = s
  rw [h2]

/-- A filtered page never holds more than `limit` items. -/
theorem length_take_le {α : Type} (l : List α) (n : Nat) : (l.take n).length ≤ n := by
  rw [List.length_take]
  exact min_le_left _ _

/-- Nonnegativity of the running total in `create_order`'s summation loop,
given nonnegative prices and quantities. -/
theorem computeTotalAux_nonneg (existing : List Product)
    (hp : ∀ p ∈ existing, 0 ≤ p.price) :
    ∀ items : List OrderItem, (∀ it ∈ items, 0 ≤ it.qty) →
      ∀ acc t : ℚ, 0 ≤ acc → computeTotalAux existing acc items = some t → 0 ≤ t := by
  intro items
  induction items with
  | nil =>
    intro _ acc t hacc h
    simp only [computeTotalAux, Option.some.injEq] at h
    rw [← h]; exact hacc
  | cons it rest ih =>
    intro hq acc t hacc h
    simp only [computeTotalAux] at h
    cases hfind : existing.find? (fun p => p.id == it.productId) with
    | none => rw [hfind] at h; cases h
    | some p =>
      rw [hfind] at h
      have hp' : 0 ≤ p.price := hp p (List.mem_of_find?_eq_some hfind)
      have hq' : (0 : ℚ) ≤ (it.qty : ℚ) := by
        exact_mod_cast hq it (List.mem_cons_self it rest)
      exact ih (fun j hj => hq j (List.mem_cons_of_mem it hj)) _ t
        (add_nonneg hacc (mul_nonneg hp' hq')) h

end ECom

namespace ECom

/-! ## Claims -/

/-- C1: the claim fails on the code.  `create_order` compares the number of
*documents* returned by the `$in` query (one per distinct existing id)
against the number of requested items *with duplicates* (main.py line 203).
First conjunct: an order whose items repeat the same existing productId is
rejected with `ValidationError` whose missing-id list is empty — every
referenced product exists, contradicting the claimed "fails if and only if
some distinct referenced id is absent".  Second conjunct: a missing id
repeated in the items list is reported once per occurrence, so duplicates
do inflate the report. -/
theorem C1_duplicate_items_spuriously_rejected :
    create_order [{ id := "p1", name := "Shoe A", price := 10, sizes := [] }]
        { userId := "u1", items := [⟨"p1", 1⟩, ⟨"p1", 1⟩] } "o1"
      = CreateOrderResult.validationError []
  ∧ create_order []
        { userId := "u1", items := [⟨"x", 1⟩, ⟨"x", 1⟩] } "o1"
      = CreateOrderResult.validationError ["x", "x"] := by
  decide

/-- C2: the claim fails on the code for the same reason as C1.  First
conjunct: a request whose items duplicate an existing productId — so all
referenced products exist — is rejected by the length comparison and no
order (hence no total) is ever stored.  Second conjunct: on a request with
pairwise-distinct existing ids the stored total is Σ price·qty as claimed
(the spec example: 10·2 + 5·1 = 25). -/
theorem C2_total_unreachable_for_duplicates :
    create_order [{ id := "p2", name := "Shoe B", price := 5, sizes := [] }]
        { userId := "u2", items := [⟨"p2", 2⟩, ⟨"p2", 3⟩] } "o2"
      = CreateOrderResult.validationError []
  ∧ create_order
        [{ id := "q1", name := "A", price := 10, sizes := [] },
         { id := "q2", name := "B", price := 5, sizes := [] }]
        { userId := "u2", items := [⟨"q1", 2⟩, ⟨"q2", 1⟩] } "o3"
      = CreateOrderResult.created
          { id := "o3", userId := "u2", items := [⟨"q1", 2⟩, ⟨"q2", 1⟩], total := 25 } := by
  constructor
  · decide
  · simp +decide [create_order, computeTotal, computeTotalAux]
    norm_num

/-- C3 counterexample: with three stored products, `limit = 1` and
`offset = 0` there is a further page (`0 + 1 < 3`), and the serialized
value of `page.next` is the JSON *string* `"1"` — produced by
`str(next_offset)` into the `Optional[str]` field (main.py lines 37
and 174) — not the JSON number `1` the claim asserts. -/
theorem C3_next_is_string_counterexample :
    (list_products [⟨"a", "A", 1, []⟩, ⟨"b", "B", 1, []⟩, ⟨"c", "C", 1, []⟩]
        none none 1 0).page.nextJson = JsonVal.jstr "1"
  ∧ (list_products [⟨"a", "A", 1, []⟩, ⟨"b", "B", 1, []⟩, ⟨"c", "C", 1, []⟩]
        none none 1 0).page.nextJson ≠ JsonVal.jnum 1
  ∧ 0 + 1 < 3 := by
  decide

/-- C3 (amended): in both paginated list responses, `page.next` is present
iff `offset + limit` is less than the number of matching documents, and
when present it carries the decimal string rendering of the number
`offset + limit` (the field is serialized as a JSON string, not a
number). -/
theorem C3_next_offset_amended (products : List Product) (orders : List Order)
    (name size : Option String) (uid : String) (limit offset : Nat) :
    ((list_products products name size limit offset).page.next
        = if offset + limit < (products.filter (productMatches name size)).length
          then some (toString (offset + limit)) else none)
  ∧ ((list_products products name size limit offset).page.next.isSome
        = decide (offset + limit < (products.filter (productMatches name size)).length))
  ∧ ((list_orders products orders uid limit offset).page.next
        = if offset + limit < (orders.filter (fun o => o.userId == uid)).length
          then some (toString (offset + limit)) else none)
  ∧ ((list_orders products orders uid limit offset).page.next.isSome
        = decide (offset + limit < (orders.filter (fun o => o.userId == uid)).length)) := by
  refine ⟨rfl, ?_, rfl, ?_⟩ <;>
    · simp only [list_products, list_orders, mkPagination]
      split <;> simp_all

/-- C4: in both paginated list responses, `page.previous` is the purely
arithmetic `offset - limit` when `offset > 0` and absent when
`offset = 0`; it is not clamped, so it is negative whenever
`0 < offset < limit`. -/
theorem C4_previous_unclamped (products : List Product) (orders : List Order)
    (name size : Option String) (uid : String) (limit offset : Nat) :
    ((list_products products name size limit offset).page.previous
        = if 0 < offset then some ((offset : Int) - (limit : Int)) else none)
  ∧ ((list_orders products orders uid limit offset).page.previous
        = if 0 < offset then some ((offset : Int) - (limit : Int)) else none)
  ∧ (0 < offset → offset < limit →
      (list_products products name size limit offset).page.previous
          = some ((offset : Int) - (limit : Int))
        ∧ (offset : Int) - (limit : Int) < 0) := by
  refine ⟨rfl, rfl, ?_⟩
  intro h1 h2
  constructor
  · simp only [list_products, mkPagination]
    rw [if_pos h1]
  · have : (offset : Int) < (limit : Int) := by exact_mod_cast h2
    omega

/-- C4 witness: with `offset = 2 < limit = 5` the previous offset is the
negative number `2 - 5 = -3`. -/
theorem C4_previous_unclamped_witness :
    (list_products ([] : List Product) none none 5 2).page.previous
        = some ((2 : Int) - (5 : Int))
      ∧ (2 : Int) - (5 : Int) < 0 :=
  (C4_previous_unclamped [] [] none none "u" 5 2).2.2 (by decide) (by decide)

/-- C5: for every request with `limit` in `[1, 100]`, both list endpoints
return at most `limit` items, and `page.limit` equals the number of items
actually returned. -/
theorem C5_page_limit_is_data_length (products : List Product) (orders : List Order)
    (name size : Option String) (uid : String) (limit offset : Nat)
    (h1 : 1 ≤ limit) (h2 : limit ≤ 100) :
    (list_products products name size limit offset).data.length ≤ limit
  ∧ (list_products products name size limit offset).page.limit
      = (list_products products name size limit offset).data.length
  ∧ (list_orders products orders uid limit offset).data.length ≤ limit
  ∧ (list_orders products orders uid limit offset).page.limit
      = (list_orders products orders uid limit offset).data.length := by
  refine ⟨?_, rfl, ?_, rfl⟩ <;>
    · simp only [list_products, list_orders, List.length_map]
      exact length_take_le _ _

/-- C5 witness at a concrete store: two products, `limit = 1`. -/
theorem C5_page_limit_witness :
    (list_products [⟨"a", "A", 1, []⟩, ⟨"b", "B", 2, []⟩] none none 1 0).data.length ≤ 1
  ∧ (list_products [⟨"a", "A", 1, []⟩, ⟨"b", "B", 2, []⟩] none none 1 0).page.limit
      = (list_products [⟨"a", "A", 1, []⟩, ⟨"b", "B", 2, []⟩] none none 1 0).data.length
  ∧ (list_orders [] ([] : List Order) "u" 1 0).data.length ≤ 1
  ∧ (list_orders [] ([] : List Order) "u" 1 0).page.limit
      = (list_orders [] ([] : List Order) "u" 1 0).data.length :=
  C5_page_limit_is_data_length [⟨"a", "A", 1, []⟩, ⟨"b", "B", 2, []⟩] [] none none "u" 1 0
    (by decide) (by decide)

end ECom

namespace ECom

/-- C6: for a non-empty plain-text name filter the product listing returns exactly
the products whose name contains the filter text as a case-insensitive
substring (first conjunct, stated with `offset = 0` and a limit large
enough to hold the whole store), and the executed regex path and the dead
escaped-literal fallback path (main.py lines 146 and 149) produce the same
response for any plain-text input, because `re.escape` is the identity on
plain text (second conjunct). -/
theorem C6_plain_name_filter (store : List Product) (n : String)
    (size : Option String) (limit offset : Nat)
    (hp : isPlainText n = true) (hn : n ≠ "") (hl : store.length ≤ limit) :
    ((list_products store (some n) none limit 0).data
        = (store.filter (fun p => containsSeq n.toLower.data p.name.toLower.data)).map
            (fun p => { id := p.id, name := p.name, price := p.price }))
  ∧ list_products_fallback store (some n) size limit offset
      = list_products store (some n) size limit offset := by
  constructor
  · have hfc : store.filter (productMatches (some n) none)
        = store.filter (fun p => containsSeq n.toLower.data p.name.toLower.data) := by
      apply List.filter_congr
      intro p _
      simp [productMatches, mongoRegexMatchI, hn]
    simp only [list_products, hfc, List.drop_zero]
    rw [List.take_of_length_le (le_trans (List.length_filter_le _ _) hl)]
  · have he : reEscape n = n := reEscape_of_plain n hp
    have hfc : ∀ p ∈ store,
        productMatchesFallback (some n) size p = productMatches (some n) size p := by
      intro p _
      simp only [productMatchesFallback, productMatches, he]
    simp only [list_products_fallback, list_products, List.filter_congr hfc]

/-- C6 witness: the spec's own example, store containing
"Nike Air Max 270" and filter `name=nike`. -/
theorem C6_plain_name_filter_witness :
    ((list_products
        [⟨"1", "Nike Air Max 270", 129, []⟩, ⟨"2", "Adidas Ultraboost", 179, []⟩]
        (some "nike") none 10 0).data
      = (([⟨"1", "Nike Air Max 270", 129, []⟩,
           ⟨"2", "Adidas Ultraboost", 179, []⟩] : List Product).filter
          (fun p => containsSeq "nike".toLower.data p.name.toLower.data)).map
            (fun p => { id := p.id, name := p.name, price := p.price }))
  ∧ list_products_fallback
        [⟨"1", "Nike Air Max 270", 129, []⟩, ⟨"2", "Adidas Ultraboost", 179, []⟩]
        (some "nike") none 10 0
      = list_products
          [⟨"1", "Nike Air Max 270", 129, []⟩, ⟨"2", "Adidas Ultraboost", 179, []⟩]
          (some "nike") none 10 0 :=
  C6_plain_name_filter
    [⟨"1", "Nike Air Max 270", 129, []⟩, ⟨"2", "Adidas Ultraboost", 179, []⟩]
    "nike" none 10 0 (by decide) (by decide) (by decide)

/-- C7: the size filter selects exactly the products some of whose `sizes`
entries have `size` equal to the filter text — literal equality, no
case-folding (first conjunct, with `offset = 0` and a limit large enough
to hold the whole store) — and combining a name filter with a size filter
selects precisely the products selected by both individual filters
(second conjunct). -/
theorem C7_size_filter_exact_and_conjunctive (store : List Product) (n s : String)
    (hs : s ≠ "") (limit : Nat) (hl : store.length ≤ limit) :
    ((list_products store none (some s) limit 0).data
        = (store.filter (fun p => p.sizes.any (fun e => e.size == s))).map
            (fun p => { id := p.id, name := p.name, price := p.price }))
  ∧ (∀ p : Product,
      p ∈ store.filter (productMatches (some n) (some s))
        ↔ p ∈ store.filter (productMatches (some n) none)
          ∧ p ∈ store.filter (productMatches none (some s))) := by
  constructor
  · have hfc : store.filter (productMatches none (some s))
        = store.filter (fun p => p.sizes.any (fun e => e.size == s)) := by
      apply List.filter_congr
      intro p _
      simp [productMatches, hs]
    simp only [list_products, hfc, List.drop_zero]
    rw [List.take_of_length_le (le_trans (List.length_filter_le _ _) hl)]
  · intro p
    simp only [List.mem_filter, productMatches, Bool.and_eq_true, Bool.and_true,
      Bool.true_and]
    tauto

/-- C7 witness: the spec's example, a product with size label "US 7" is
matched by `size=US 7` (and the `us 7` case-folded variant matches nothing,
visible in the evaluated first conjunct). -/
theorem C7_size_filter_witness :
    ((list_products [⟨"1", "Nike", 129, [⟨"US 7", 10⟩]⟩] none (some "US 7") 10 0).data
        = (([⟨"1", "Nike", 129, [⟨"US 7", 10⟩]⟩] : List Product).filter
            (fun p => p.sizes.any (fun e => e.size == "US 7"))).map
              (fun p => { id := p.id, name := p.name, price := p.price }))
  ∧ (∀ p : Product,
      p ∈ ([⟨"1", "Nike", 129, [⟨"US 7", 10⟩]⟩] : List Product).filter
            (productMatches (some "nike") (some "US 7"))
        ↔ p ∈ ([⟨"1", "Nike", 129, [⟨"US 7", 10⟩]⟩] : List Product).filter
              (productMatches (some "nike") none)
          ∧ p ∈ ([⟨"1", "Nike", 129, [⟨"US 7", 10⟩]⟩] : List Product).filter
              (productMatches none (some "US 7"))) :=
  C7_size_filter_exact_and_conjunctive [⟨"1", "Nike", 129, [⟨"US 7", 10⟩]⟩]
    "nike" "US 7" (by decide) 10 (by decide)

/-- C8: every order returned by the user listing corresponds to a stored
order of that user; it carries the stored `id` and the total stored at
order-creation time, and its item list is exactly the stored items mapped
through the product lookup — an item whose referenced product exists
becomes `{productDetails = {name, id}, qty}` and an item whose product is
not found is silently dropped (`List.filterMap` over `enrichItem`). -/
theorem C8_orders_enriched_from_store (products : List Product)
    (orders : List Order) (uid : String) (limit offset : Nat) :
    ∀ od ∈ (list_orders products orders uid limit offset).data,
      ∃ w, w ∈ orders ∧ w.userId = uid ∧ od.id = w.id ∧ od.total = w.total
        ∧ od.items = w.items.filterMap (enrichItem products) := by
  intro od hod
  simp only [list_orders, List.mem_map] at hod
  obtain ⟨w, hw, rfl⟩ := hod
  have hw1 : w ∈ orders.filter (fun o => o.userId == uid) :=
    List.mem_of_mem_drop (List.mem_of_mem_take hw)
  rw [List.mem_filter] at hw1
  refine ⟨w, hw1.1, ?_, rfl, rfl, rfl⟩
  simpa using hw1.2

/-- C8 witness: a stored order holding one item whose product exists and
one dangling item; the response keeps the enriched first item, drops the
dangling one, and echoes the stored total. -/
theorem C8_orders_enriched_witness :
    ∃ w, w ∈ [({ id := "o1", userId := "u", items := [⟨"p1", 2⟩, ⟨"ghost", 5⟩], total := 6 } : Order)]
      ∧ w.userId = "u"
      ∧ ({ id := "o1",
           items := [{ productDetails := { name := "Apple", id := "p1" }, qty := 2 }],
           total := 6 } : OrderListItem).id = w.id
      ∧ ({ id := "o1",
           items := [{ productDetails := { name := "Apple", id := "p1" }, qty := 2 }],
           total := 6 } : OrderListItem).total = w.total
      ∧ ({ id := "o1",
           items := [{ productDetails := { name := "Apple", id := "p1" }, qty := 2 }],
           total := 6 } : OrderListItem).items
          = w.items.filterMap (enrichItem [⟨"p1", "Apple", 3, []⟩]) :=
  C8_orders_enriched_from_store [⟨"p1", "Apple", 3, []⟩]
    [{ id := "o1", userId := "u", items := [⟨"p1", 2⟩, ⟨"ghost", 5⟩], total := 6 }]
    "u" 10 0
    { id := "o1",
      items := [{ productDetails := { name := "Apple", id := "p1" }, qty := 2 }],
      total := 6 }
    (by decide)

end ECom

namespace ECom

/-- C9 counterexample: neither `qty` (OrderItem, main.py line 48) nor the
stored `price` is range-checked, so an accepted order can persist a
negative total: one existing product with price 10 and a single item with
`qty = -1` is accepted and stored with `total = -10 < 0`. -/
theorem C9_negative_total_counterexample :
    create_order [{ id := "p", name := "Shoe", price := 10, sizes := [] }]
        { userId := "u", items := [⟨"p", -1⟩] } "o"
      = CreateOrderResult.created
          { id := "o", userId := "u", items := [⟨"p", -1⟩], total := -10 }
  ∧ ¬ (0 : ℚ) ≤ (-10 : ℚ) := by
  constructor
  · simp +decide [create_order, computeTotal, computeTotalAux]
  · decide

/-- C9 (amended): every order persisted by `create_order` has `total ≥ 0`
provided every stored product's price is nonnegative and every item's qty
is nonnegative; without those side conditions (which the code does not
enforce) the invariant fails, as the counterexample shows. -/
theorem C9_total_nonneg_amended (products : List Product) (req : OrderCreate)
    (newId : String)
    (hp : ∀ p ∈ products, 0 ≤ p.price) (hq : ∀ it ∈ req.items, 0 ≤ it.qty) :
    ∀ ord, create_order products req newId = CreateOrderResult.created ord →
      0 ≤ ord.total := by
  intro ord h
  simp only [create_order] at h
  split at h
  · simp at h
  · split at h
    next total hct =>
      cases h
      exact computeTotalAux_nonneg _
        (fun p hpm => hp p (List.mem_of_mem_filter hpm)) req.items hq 0 total
        le_rfl hct
    next hct => simp at h

/-- C9 witness: nonnegative price and qty give a nonnegative stored
total. -/
theorem C9_total_nonneg_witness :
    (0 : ℚ) ≤ (({ id := "o", userId := "u", items := [⟨"w1", 1⟩], total := 10 } : Order)).total :=
  C9_total_nonneg_amended [{ id := "w1", name := "Shoe", price := 10, sizes := [] }]
    { userId := "u", items := [⟨"w1", 1⟩] } "o" (by decide) (by decide)
    { id := "o", userId := "u", items := [⟨"w1", 1⟩], total := 10 }
    (by simp +decide [create_order, computeTotal, computeTotalAux])

/-- C10: supplying `name` or `size` as the empty string is the same as
omitting it — `if name:` / `if size:` (main.py lines 143 and 152) treat
the empty string as falsy, so no filter condition is added. -/
theorem C10_empty_filter_treated_as_absent (store : List Product)
    (name size : Option String) (limit offset : Nat) :
    list_products store (some "") size limit offset
        = list_products store none size limit offset
  ∧ list_products store name (some "") limit offset
      = list_products store name none limit offset := by
  constructor
  · have hfc : ∀ p ∈ store, productMatches (some "") size p = productMatches none size p := by
      intro p _
      simp [productMatches]
    simp only [list_products, List.filter_congr hfc]
  · have hfc : ∀ p ∈ store, productMatches name (some "") p = productMatches name none p := by
      intro p _
      simp [productMatches]
    simp only [list_products, List.filter_congr hfc]

end ECom
